import Mathlib

/-!
Formal model of the two core modules of the astarte-device-sdk-rust
repository:

* the persistent property cache, `src/database.rs` (the `propcache` table and
  the `AstarteDatabase` operations of `AstarteSqliteDatabase`);
* the pairing client, `src/pairing.rs` (URL building and response handling of
  `fetch_credentials` and `fetch_broker_url`).

The SQLite table is modelled as a list of rows in rowid order; each operation
is the translation of the single SQL statement it executes.  The serde-derived
deserializers of `ApiResponse` and its nested structs are translated field by
field from the Rust declarations (which carry no rename attributes, so the
JSON keys are the Rust field names).  The external value codec
(`AstarteSdk::serialize_individual` / `AstarteSdk::deserialize`, which live
outside the two modules) is modelled from the spec where noted.
-/

set_option autoImplicit false

namespace Astarte

/-- Scalar values of the device data model (`AstarteType` in the SDK).
Modelled from the spec: the concrete list of scalar payload types lives in
`types.rs`, outside the two source modules; a representative set of scalars
plus the explicit `Unset` sentinel is used here. -/
inductive AstarteType where
  | Unset : AstarteType
  | Boolean : Bool → AstarteType
  | Integer : Int → AstarteType
  deriving DecidableEq, Repr

/-- Result of decoding a stored payload (`Aggregation` in the SDK): either a
single scalar (`Individual`) or an aggregate (`Object`). -/
inductive Aggregation where
  | Individual : AstarteType → Aggregation
  | Object : Aggregation
  deriving DecidableEq, Repr

/-- Errors surfaced by the property store (the `AstarteError` variants that
`database.rs` can produce). -/
inductive AstarteError where
  | Reported : String → AstarteError
  | DeserializeError : AstarteError
  deriving DecidableEq, Repr

/-- Sign-magnitude byte encoding of an integer payload. -/
def encodeInt (n : Int) : List Nat :=
  if 0 ≤ n then [0, n.toNat] else [1, (-n).toNat]

/-- Inverse of `encodeInt`. -/
def decodeInt (b : List Nat) : Int :=
  match b with
  | [0, m] => Int.ofNat m
  | [1, m] => -(Int.ofNat m)
  | _ => 0

/-- Modelled from the spec: the external value codec
(`AstarteSdk::serialize_individual`, outside the two source modules) encodes a
scalar into a non-empty tagged byte payload; the empty payload is reserved as
the explicit unset marker. -/
def serialize_individual (v : AstarteType) : List Nat :=
  match v with
  | AstarteType.Unset => []
  | AstarteType.Boolean true => [2, 1]
  | AstarteType.Boolean false => [2, 0]
  | AstarteType.Integer n => 1 :: encodeInt n

/-- Modelled from the spec: the external value codec (`AstarteSdk::deserialize`,
outside the two source modules) decodes the empty payload as the explicit
`Unset` sentinel and otherwise inverts the scalar encoding; tag 9 marks an
aggregate (`Object`) payload. -/
def deserialize (b : List Nat) : Except AstarteError Aggregation :=
  match b with
  | [] => Except.ok (Aggregation.Individual AstarteType.Unset)
  | [2, 1] => Except.ok (Aggregation.Individual (AstarteType.Boolean true))
  | [2, 0] => Except.ok (Aggregation.Individual (AstarteType.Boolean false))
  | 1 :: rest => Except.ok (Aggregation.Individual (AstarteType.Integer (decodeInt rest)))
  | 9 :: _ => Except.ok Aggregation.Object
  | _ => Except.error AstarteError.DeserializeError

/-- One row of the `propcache` table (struct `StoredProp` in `database.rs`). -/
structure StoredProp where
  interface : String
  path : String
  value : List Nat
  interface_major : Int
  deriving DecidableEq, Repr

/-- The `propcache` table, rows in rowid order.  The schema's primary key
`(interface, path)` means a conforming table has at most one row per key. -/
abbrev Db := List StoredProp

/-- The SQL key test `interface=? and path=?`. -/
def propMatches (interface path : String) (r : StoredProp) : Bool :=
  r.interface == interface && r.path == path

/-- `select ... from propcache where interface=? and path=?` (at most one row
can match, by the primary key). -/
def find_row (db : Db) (interface path : String) : Option StoredProp :=
  db.find? (propMatches interface path)

/-- `AstarteDatabase::store_prop`: `insert or replace into propcache
(interface, path, value, interface_major) VALUES (?,?,?,?)`.  On a key
conflict SQLite deletes the old row and inserts the new one with a fresh
rowid, i.e. at the end of the table. -/
def store_prop (db : Db) (interface path : String) (value : List Nat)
    (interface_major : Int) : Db :=
  (db.filter fun r => !(propMatches interface path r)) ++
    [⟨interface, path, value, interface_major⟩]

/-- `AstarteDatabase::delete_prop`: `delete from propcache where interface=?
and path=?`. -/
def delete_prop (db : Db) (interface path : String) : Db :=
  db.filter fun r => !(propMatches interface path r)

/-- `AstarteDatabase::load_prop`: selects the row for the key; on a major
version mismatch it deletes the row and returns `none`; otherwise it decodes
the payload, rejecting `Object` aggregates.  The result is returned together
with the table left behind (the mismatch branch mutates it). -/
def load_prop (db : Db) (interface path : String) (interface_major : Int) :
    Except AstarteError (Option AstarteType) × Db :=
  match find_row db interface path with
  | none => (Except.ok none, db)
  | some r =>
    if r.interface_major ≠ interface_major then
      (Except.ok none, delete_prop db interface path)
    else
      match deserialize r.value with
      | Except.error e => (Except.error e, db)
      | Except.ok (Aggregation.Individual v) => (Except.ok (some v), db)
      | Except.ok Aggregation.Object =>
          (Except.error (AstarteError.Reported
            ("BUG: extracting an object from the database")), db)

/-- `AstarteDatabase::clear`: `delete from propcache`. -/
def clear (_ : Db) : Db := []

/-- `AstarteDatabase::load_all_props`: `select * from propcache`. -/
def load_all_props (db : Db) : List StoredProp := db

/-- JSON values (the serde_json data model, with numbers restricted to
integers, which suffices for the payloads exchanged by the pairing client). -/
inductive Json where
  | null : Json
  | bool : Bool → Json
  | num : Int → Json
  | str : String → Json
  | arr : List Json → Json
  | obj : List (String × Json) → Json

/-- JSON insignificant whitespace. -/
def jsonWs (c : Char) : Bool :=
  c == ' ' || c == '\n' || c == '\t' || c == '\r'

/-- Skips insignificant whitespace. -/
def skipWs : List Char → List Char
  | [] => []
  | c :: rest => if jsonWs c then skipWs rest else c :: rest

/-- Contents of a string literal after the opening quote, up to the closing
quote (escape sequences are not modelled; a backslash makes the parse fail). -/
def parseChars : List Char → Option (List Char × List Char)
  | [] => none
  | c :: rest =>
    if c = '"' then some ([], rest)
    else if c = '\\' then none
    else
      match parseChars rest with
      | some (s, r) => some (c :: s, r)
      | none => none

/-- Decimal digit test. -/
def isDigitCh (c : Char) : Bool := '0' ≤ c && c ≤ '9'

/-- Leading run of decimal digits. -/
def takeDigits : List Char → List Nat × List Char
  | [] => ([], [])
  | c :: rest =>
    if isDigitCh c then
      match takeDigits rest with
      | (ds, r) => ((c.toNat - '0'.toNat) :: ds, r)
    else ([], c :: rest)

/-- Value of a digit run. -/
def natOfDigits (ds : List Nat) : Nat := ds.foldl (fun a d => a * 10 + d) 0

/-- Integer number literal, with optional leading minus. -/
def parseNumber : List Char → Option (Json × List Char)
  | '-' :: rest =>
    match takeDigits rest with
    | ([], _) => none
    | (ds, r) => some (Json.num (-(Int.ofNat (natOfDigits ds))), r)
  | s =>
    match takeDigits s with
    | ([], _) => none
    | (ds, r) => some (Json.num (Int.ofNat (natOfDigits ds)), r)

mutual

/-- Recursive-descent JSON value parser, fuelled by the input length. -/
def parseValue : Nat → List Char → Option (Json × List Char)
  | 0, _ => none
  | fuel + 1, s =>
    match skipWs s with
    | [] => none
    | '"' :: rest =>
      match parseChars rest with
      | some (cs, r) => some (Json.str (String.mk cs), r)
      | none => none
    | '{' :: rest =>
      match skipWs rest with
      | '}' :: r => some (Json.obj [], r)
      | s2 =>
        match parseMembers fuel s2 with
        | some (ms, r) => some (Json.obj ms, r)
        | none => none
    | '[' :: rest =>
      match skipWs rest with
      | ']' :: r => some (Json.arr [], r)
      | s2 =>
        match parseElems fuel s2 with
        | some (es, r) => some (Json.arr es, r)
        | none => none
    | 't' :: 'r' :: 'u' :: 'e' :: r => some (Json.bool true, r)
    | 'f' :: 'a' :: 'l' :: 's' :: 'e' :: r => some (Json.bool false, r)
    | 'n' :: 'u' :: 'l' :: 'l' :: r => some (Json.null, r)
    | s2 => parseNumber s2

/-- Non-empty member list of a JSON object, up to the closing brace. -/
def parseMembers : Nat → List Char → Option (List (String × Json) × List Char)
  | 0, _ => none
  | fuel + 1, s =>
    match s with
    | '"' :: rest =>
      match parseChars rest with
      | none => none
      | some (k, r1) =>
        match skipWs r1 with
        | ':' :: r2 =>
          match parseValue fuel r2 with
          | none => none
          | some (v, r3) =>
            match skipWs r3 with
            | ',' :: r4 =>
              match parseMembers fuel (skipWs r4) with
              | some (ms, r5) => some ((String.mk k, v) :: ms, r5)
              | none => none
            | '}' :: r4 => some ([(String.mk k, v)], r4)
            | _ => none
        | _ => none
    | _ => none

/-- Non-empty element list of a JSON array, up to the closing bracket. -/
def parseElems : Nat → List Char → Option (List Json × List Char)
  | 0, _ => none
  | fuel + 1, s =>
    match parseValue fuel s with
    | none => none
    | some (v, r) =>
      match skipWs r with
      | ',' :: r2 =>
        match parseElems fuel (skipWs r2) with
        | some (vs, r3) => some (v :: vs, r3)
        | none => none
      | ']' :: r2 => some ([v], r2)
      | _ => none

end

/-- `serde_json::from_str` on a whole document: one value, then end of input. -/
def parseJson (s : String) : Option Json :=
  match parseValue (s.length + 1) s.data with
  | some (j, r) => if skipWs r = [] then some j else none
  | none => none

/-- Struct `AstarteMqttV1Info` of `pairing.rs`. -/
structure AstarteMqttV1Info where
  broker_url : String
  deriving DecidableEq, Repr

/-- Struct `ProtocolsInfo` of `pairing.rs`. -/
structure ProtocolsInfo where
  astarte_mqtt_v1 : AstarteMqttV1Info
  deriving DecidableEq, Repr

/-- The untagged enum `ResponseContents` of `pairing.rs`: the `StatusInfo`
fields are, in order, `version`, `status` and `protocols`. -/
inductive ResponseContents where
  | AstarteMqttV1Credentials : String → ResponseContents
  | StatusInfo : String → String → ProtocolsInfo → ResponseContents
  deriving DecidableEq, Repr

/-- Struct `ApiResponse` of `pairing.rs`. -/
structure ApiResponse where
  data : ResponseContents
  deriving DecidableEq, Repr

/-- Field lookup in a JSON object, as serde performs it when deserializing a
struct: fields are matched by name in any order, unknown fields are ignored. -/
def getField (j : Json) (key : String) : Option Json :=
  match j with
  | Json.obj members =>
    match members.find? (fun kv => kv.fst == key) with
    | some kv => some kv.snd
    | none => none
  | _ => none

/-- A JSON string, as serde accepts for a Rust `String` field. -/
def asString (j : Json) : Option String :=
  match j with
  | Json.str s => some s
  | _ => none

/-- Derived deserializer of the variant `AstarteMqttV1Credentials`: it needs a
string field named `client_crt` (the Rust field name; the declaration carries
no serde rename attribute). -/
def deCredentials (j : Json) : Option ResponseContents :=
  match (getField j ("client_crt")).bind asString with
  | some s => some (ResponseContents.AstarteMqttV1Credentials s)
  | none => none

/-- Derived deserializer of struct `AstarteMqttV1Info`: a string field named
`broker_url`. -/
def deAstarteMqttV1Info (j : Json) : Option AstarteMqttV1Info :=
  match (getField j ("broker_url")).bind asString with
  | some s => some ⟨s⟩
  | none => none

/-- Derived deserializer of struct `ProtocolsInfo`: a field named
`astarte_mqtt_v1`. -/
def deProtocolsInfo (j : Json) : Option ProtocolsInfo :=
  match (getField j ("astarte_mqtt_v1")).bind deAstarteMqttV1Info with
  | some a => some ⟨a⟩
  | none => none

/-- Derived deserializer of the variant `StatusInfo`: string fields `version`
and `status` and a `protocols` field. -/
def deStatusInfo (j : Json) : Option ResponseContents :=
  match (getField j ("version")).bind asString,
      (getField j ("status")).bind asString,
      (getField j ("protocols")).bind deProtocolsInfo with
  | some v, some s, some p => some (ResponseContents.StatusInfo v s p)
  | _, _, _ => none

/-- serde's untagged enum deserializer: the variants are tried in declaration
order, the first that matches wins. -/
def deResponseContents (j : Json) : Option ResponseContents :=
  match deCredentials j with
  | some r => some r
  | none => deStatusInfo j

/-- Derived deserializer of struct `ApiResponse`: a `data` field holding the
untagged `ResponseContents`. -/
def deApiResponse (j : Json) : Option ApiResponse :=
  match (getField j ("data")).bind deResponseContents with
  | some c => some ⟨c⟩
  | none => none

/-- The `PairingError` enum of `pairing.rs`; `ApiError` carries the HTTP
status code and the raw response body. -/
inductive PairingError where
  | InvalidCredentials : PairingError
  | InvalidUrl : PairingError
  | RequestError : PairingError
  | UnexpectedResponse : PairingError
  | ApiError : Nat → String → PairingError
  | Crypto : PairingError
  deriving DecidableEq, Repr

/-- An HTTP response as the two pairing operations observe it: the status code
and the raw body text. -/
structure HttpResponse where
  status : Nat
  body : String
  deriving DecidableEq, Repr

/-- Response handling of `fetch_credentials` (`pairing.rs`, the match on
`response.status()`): on 201 (`StatusCode::CREATED`) the body goes through
`response.json::<ApiResponse>()` — JSON parsing plus the derived untagged
deserializer, whose failure is a reqwest decode error surfaced by `?` as
`RequestError` — and only the `AstarteMqttV1Credentials` variant is accepted;
any other status yields `ApiError` with the raw body. -/
def fetch_credentials_handle (resp : HttpResponse) : Except PairingError String :=
  if resp.status = 201 then
    match (parseJson resp.body).bind deApiResponse with
    | none => Except.error PairingError.RequestError
    | some r =>
      match r.data with
      | ResponseContents.AstarteMqttV1Credentials client_crt => Except.ok client_crt
      | ResponseContents.StatusInfo _ _ _ => Except.error PairingError.UnexpectedResponse
  else
    Except.error (PairingError.ApiError resp.status resp.body)

/-- Response handling of `fetch_broker_url` (`pairing.rs`): on 200
(`StatusCode::OK`) the body goes through `response.json::<ApiResponse>()` and
only the `StatusInfo` variant is accepted, returning its nested
`broker_url`; any other status yields `ApiError` with the raw body. -/
def fetch_broker_url_handle (resp : HttpResponse) : Except PairingError String :=
  if resp.status = 200 then
    match (parseJson resp.body).bind deApiResponse with
    | none => Except.error PairingError.RequestError
    | some r =>
      match r.data with
      | ResponseContents.StatusInfo _ _ p => Except.ok p.astarte_mqtt_v1.broker_url
      | ResponseContents.AstarteMqttV1Credentials _ =>
          Except.error PairingError.UnexpectedResponse
  else
    Except.error (PairingError.ApiError resp.status resp.body)

/-- Segment append of the url crate (`PathSegmentsMut::push`, as used on
`pairing.rs` lines 84-92): a slash separator is inserted exactly when the
current serialization extends past the single slash left by parsing the base
URL.  The fixed segments pushed by the pairing client need no
percent-encoding, which is therefore not modelled. -/
def pushSegment (path seg : String) : String :=
  (if 1 < path.length then path ++ ("/") else path) ++ seg

/-- Folds `push` over a list of segments. -/
def buildPath (basePath : String) (segs : List String) : String :=
  segs.foldl pushSegment basePath

/-- Splits a character list at the first slash. -/
def splitAtSlash : List Char → List Char × List Char
  | [] => ([], [])
  | c :: rest =>
    if c = '/' then ([], c :: rest)
    else
      match splitAtSlash rest with
      | (a, b) => (c :: a, b)

/-- Scheme handling of `Url::parse`, restricted to absolute http/https URLs. -/
def schemeSplit (s : List Char) : Option (List Char) :=
  if List.isPrefixOf ("http://".data) s then some (s.drop 7)
  else if List.isPrefixOf ("https://".data) s then some (s.drop 8)
  else none

/-- The path component `Url::parse` produces for an absolute http(s) URL:
everything from the first slash after the authority, or the root path `/`
when the authority is not followed by a slash. -/
def basePathOfUrl (url : String) : Option String :=
  match schemeSplit url.data with
  | none => none
  | some rest =>
    match splitAtSlash rest with
    | (host, p) =>
      if host = [] then none
      else if p = [] then some ("/") else some (String.mk p)

/-- The fixed segments `fetch_credentials` pushes onto the base URL. -/
def credentialsSegments (realm device_id : String) : List String :=
  ["v1", realm, "devices", device_id, "protocols", "astarte_mqtt_v1", "credentials"]

/-- The fixed segments `fetch_broker_url` pushes onto the base URL. -/
def statusSegments (realm device_id : String) : List String :=
  ["v1", realm, "devices", device_id]

/-- The final request path built by `fetch_credentials` from the configured
base URL, realm and device id. -/
def fetch_credentials_path (pairing_url realm device_id : String) : Option String :=
  (basePathOfUrl pairing_url).map fun p =>
    buildPath p (credentialsSegments realm device_id)

/-- The final request path built by `fetch_broker_url` from the configured
base URL, realm and device id. -/
def fetch_broker_url_path (pairing_url realm device_id : String) : Option String :=
  (basePathOfUrl pairing_url).map fun p =>
    buildPath p (statusSegments realm device_id)

/-- A row matches its own key. -/
theorem propMatches_self (i p : String) (v : List Nat) (m : Int) :
    propMatches i p ⟨i, p, v, m⟩ = true := by
  simp [propMatches]

/-- `propMatches` as a proposition on the row's fields. -/
theorem propMatches_eq_true_iff (i p : String) (r : StoredProp) :
    propMatches i p r = true ↔ r.interface = i ∧ r.path = p := by
  simp [propMatches]

/-- `find?` commutes with filtering by a predicate weaker than the searched
one. -/
theorem find?_filter_of_imp (l : List StoredProp) (f g : StoredProp → Bool)
    (h : ∀ r, g r = true → f r = true) :
    (l.filter f).find? g = l.find? g := by
  induction l with
  | nil => rfl
  | cons a as ih =>
    by_cases hg : g a = true
    · rw [List.filter_cons, if_pos (h a hg), List.find?_cons_of_pos _ hg,
        List.find?_cons_of_pos _ hg]
    · by_cases hf : f a = true
      · rw [List.filter_cons, if_pos hf, List.find?_cons_of_neg _ hg,
          List.find?_cons_of_neg _ hg, ih]
      · rw [List.filter_cons, if_neg hf, ih, List.find?_cons_of_neg _ hg]

/-- Filtering away every `g`-match leaves nothing for `find? g`. -/
theorem find?_filter_not (l : List StoredProp) (g : StoredProp → Bool) :
    (l.filter fun r => !(g r)).find? g = none := by
  induction l with
  | nil => rfl
  | cons a as ih =>
    cases hg : g a with
    | true => rw [List.filter_cons]; simp [hg, ih]
    | false => rw [List.filter_cons]; simp [hg, ih, List.find?_cons_of_neg]

/-- Rows matching a key distinct from the stored one survive the filter of
`store_prop` and `delete_prop`. -/
theorem propMatches_imp_keep (i p i' p' : String) (h : ¬(i = i' ∧ p = p')) :
    ∀ r : StoredProp, propMatches i' p' r = true →
      (!(propMatches i p r)) = true := by
  intro r hr
  rcases (propMatches_eq_true_iff i' p' r).1 hr with ⟨h1, h2⟩
  have hfalse : propMatches i p r = false := by
    cases hpm : propMatches i p r with
    | false => rfl
    | true =>
      rcases (propMatches_eq_true_iff i p r).1 hpm with ⟨g1, g2⟩
      exact absurd ⟨g1.symm.trans h1, g2.symm.trans h2⟩ h
  simp [hfalse]

/-- After `store_prop`, the stored key holds exactly the new row. -/
theorem find_row_store_self (db : Db) (i p : String) (v : List Nat) (m : Int) :
    find_row (store_prop db i p v m) i p = some ⟨i, p, v, m⟩ := by
  unfold find_row store_prop
  rw [List.find?_append, find?_filter_not,
    List.find?_cons_of_pos _ (propMatches_self i p v m)]
  rfl

/-- `store_prop` on one key does not change what `find_row` sees at another
key. -/
theorem find_row_store_other (db : Db) (i p i' p' : String) (v : List Nat)
    (m : Int) (h : ¬(i = i' ∧ p = p')) :
    find_row (store_prop db i p v m) i' p' = find_row db i' p' := by
  unfold find_row store_prop
  rw [List.find?_append, find?_filter_of_imp _ _ _ (propMatches_imp_keep i p i' p' h)]
  have hrow : propMatches i' p' (⟨i, p, v, m⟩ : StoredProp) = false := by
    cases hpm : propMatches i' p' (⟨i, p, v, m⟩ : StoredProp) with
    | false => rfl
    | true =>
      rcases (propMatches_eq_true_iff i' p' ⟨i, p, v, m⟩).1 hpm with ⟨h1, h2⟩
      exact absurd ⟨h1, h2⟩ h
  rw [List.find?_cons_of_neg _ (by simp [hrow])]
  cases db.find? (propMatches i' p') <;> rfl

/-- After `delete_prop`, the deleted key is gone. -/
theorem find_row_delete_self (db : Db) (i p : String) :
    find_row (delete_prop db i p) i p = none :=
  find?_filter_not db (propMatches i p)

/-- `delete_prop` on one key does not change what `find_row` sees at another
key. -/
theorem find_row_delete_other (db : Db) (i p i' p' : String)
    (h : ¬(i = i' ∧ p = p')) :
    find_row (delete_prop db i p) i' p' = find_row db i' p' :=
  find?_filter_of_imp db _ _ (propMatches_imp_keep i p i' p' h)

/-- The table `load_prop` leaves behind is the original one or the one with
the requested key deleted. -/
theorem load_prop_snd (db : Db) (i p : String) (m : Int) :
    (load_prop db i p m).2 = db ∨ (load_prop db i p m).2 = delete_prop db i p := by
  unfold load_prop
  split
  · exact Or.inl rfl
  · split
    · exact Or.inr rfl
    · split
      · exact Or.inl rfl
      · exact Or.inl rfl
      · exact Or.inl rfl

/-- The modelled codec round-trips every scalar. -/
theorem deserialize_serialize (v : AstarteType) :
    deserialize (serialize_individual v) = Except.ok (Aggregation.Individual v) := by
  cases v with
  | Unset => rfl
  | Boolean b => cases b <;> rfl
  | Integer n =>
    by_cases h : 0 ≤ n
    · have : decodeInt (encodeInt n) = n := by
        simp [encodeInt, if_pos h, decodeInt, Int.toNat_of_nonneg h]
      simp [serialize_individual, deserialize, this]
    · have : decodeInt (encodeInt n) = n := by
        simp [encodeInt, if_neg h, decodeInt]
        omega
      simp [serialize_individual, deserialize, this]

/-- Claim C5: a row stored with major version m, loaded with m2 ≠ m, is
deleted as a side effect and the load returns absent; a subsequent load with
m also returns absent. -/
theorem load_prop_version_mismatch_purges (db : Db) (i p : String)
    (r : StoredProp) (m m2 : Int) (hrow : find_row db i p = some r)
    (hm : r.interface_major = m) (hne : m2 ≠ m) :
    load_prop db i p m2 = (Except.ok none, delete_prop db i p) ∧
    find_row (load_prop db i p m2).2 i p = none ∧
    (load_prop (load_prop db i p m2).2 i p m).1 = Except.ok none := by
  have h1 : load_prop db i p m2 = (Except.ok none, delete_prop db i p) := by
    have hcond : r.interface_major ≠ m2 := by
      rw [hm]; exact fun hh => hne hh.symm
    simp [load_prop, hrow, hcond]
  refine ⟨h1, ?_, ?_⟩
  · rw [h1]; exact find_row_delete_self db i p
  · rw [h1]
    simp [load_prop, find_row_delete_self db i p]

/-- Claim C5 witness at a concrete one-row table. -/
theorem load_prop_version_mismatch_purges_witness :
    load_prop ([⟨"com.test", "/test", [1, 0, 23], 1⟩] : Db) ("com.test") ("/test") 2 =
      (Except.ok none,
        delete_prop ([⟨"com.test", "/test", [1, 0, 23], 1⟩] : Db) ("com.test") ("/test")) ∧
    find_row (load_prop ([⟨"com.test", "/test", [1, 0, 23], 1⟩] : Db)
      ("com.test") ("/test") 2).2 ("com.test") ("/test") = none ∧
    (load_prop (load_prop ([⟨"com.test", "/test", [1, 0, 23], 1⟩] : Db)
      ("com.test") ("/test") 2).2 ("com.test") ("/test") 1).1 = Except.ok none :=
  load_prop_version_mismatch_purges _ ("com.test") ("/test")
    ⟨"com.test", "/test", [1, 0, 23], 1⟩ 1 2 rfl rfl (by decide)

/-- Claim C6: storing the encoding of a non-empty scalar value and loading it
back with the same major version returns the original value. -/
theorem store_load_roundtrip (db : Db) (i p : String) (v : AstarteType)
    (m : Int) (hv : serialize_individual v ≠ []) :
    (load_prop (store_prop db i p (serialize_individual v) m) i p m).1 =
      Except.ok (some v) := by
  have h1 := find_row_store_self db i p (serialize_individual v) m
  simp [load_prop, h1, deserialize_serialize v]

/-- Claim C6 witness at a concrete scalar. -/
theorem store_load_roundtrip_witness :
    (load_prop (store_prop [] ("com.test") ("/test")
        (serialize_individual (AstarteType.Integer 23)) 1) ("com.test") ("/test") 1).1 =
      Except.ok (some (AstarteType.Integer 23)) :=
  store_load_roundtrip [] ("com.test") ("/test") (AstarteType.Integer 23) 1 (by decide)

/-- Claim C7: storing the empty payload keeps the row present, and a load with
the same major version returns the explicit unset sentinel, not absent. -/
theorem store_empty_is_unset (db : Db) (i p : String) (m : Int) :
    find_row (store_prop db i p [] m) i p = some ⟨i, p, [], m⟩ ∧
    (load_prop (store_prop db i p [] m) i p m).1 =
      Except.ok (some AstarteType.Unset) := by
  refine ⟨find_row_store_self db i p [] m, ?_⟩
  have h1 := find_row_store_self db i p [] m
  simp [load_prop, h1, deserialize]

/-- Claim C9: after `clear` the table lists as empty and every key loads as
absent at every major version. -/
theorem clear_wipes_all (db : Db) :
    load_all_props (clear db) = [] ∧
    ∀ (i p : String) (m : Int),
      load_prop (clear db) i p m = (Except.ok none, clear db) := by
  exact ⟨rfl, fun i p m => rfl⟩

/-- Claim C10: `store_prop`, `delete_prop` and `load_prop` on one key leave
the row stored under any other key untouched. -/
theorem distinct_key_frame (db : Db) (i p i' p' : String) (v : List Nat)
    (m m2 : Int) (h : ¬(i = i' ∧ p = p')) :
    find_row (store_prop db i p v m) i' p' = find_row db i' p' ∧
    find_row (delete_prop db i p) i' p' = find_row db i' p' ∧
    find_row ((load_prop db i p m2).2) i' p' = find_row db i' p' := by
  refine ⟨find_row_store_other db i p i' p' v m h,
    find_row_delete_other db i p i' p' h, ?_⟩
  rcases load_prop_snd db i p m2 with h2 | h2
  · rw [h2]
  · rw [h2]; exact find_row_delete_other db i p i' p' h

/-- Claim C10 witness at a concrete table and distinct keys. -/
theorem distinct_key_frame_witness :
    find_row (store_prop ([⟨"other", "/q", [9, 9], 3⟩] : Db) ("com.test") ("/t")
      [1, 0, 5] 1) ("other") ("/q") =
      find_row ([⟨"other", "/q", [9, 9], 3⟩] : Db) ("other") ("/q") ∧
    find_row (delete_prop ([⟨"other", "/q", [9, 9], 3⟩] : Db) ("com.test") ("/t"))
      ("other") ("/q") =
      find_row ([⟨"other", "/q", [9, 9], 3⟩] : Db) ("other") ("/q") ∧
    find_row ((load_prop ([⟨"other", "/q", [9, 9], 3⟩] : Db) ("com.test") ("/t") 2).2)
      ("other") ("/q") =
      find_row ([⟨"other", "/q", [9, 9], 3⟩] : Db) ("other") ("/q") :=
  distinct_key_frame _ ("com.test") ("/t") ("other") ("/q") [1, 0, 5] 1 2 (by decide)

/-- Claim C8: any non-success status yields `ApiError` carrying that status
and the verbatim raw body (201 is the success status of `fetch_credentials`,
200 that of `fetch_broker_url`). -/
theorem non_success_status_api_error :
    (∀ resp : HttpResponse, resp.status ≠ 201 →
      fetch_credentials_handle resp =
        Except.error (PairingError.ApiError resp.status resp.body)) ∧
    (∀ resp : HttpResponse, resp.status ≠ 200 →
      fetch_broker_url_handle resp =
        Except.error (PairingError.ApiError resp.status resp.body)) := by
  constructor <;> intro resp h <;>
    simp [fetch_credentials_handle, fetch_broker_url_handle, h]

/-- Claim C8 witness: a 403 with body forbidden on both endpoints. -/
theorem non_success_status_api_error_witness :
    fetch_credentials_handle ⟨403, "forbidden"⟩ =
      Except.error (PairingError.ApiError 403 ("forbidden")) ∧
    fetch_broker_url_handle ⟨403, "forbidden"⟩ =
      Except.error (PairingError.ApiError 403 ("forbidden")) :=
  ⟨non_success_status_api_error.1 ⟨403, "forbidden"⟩ (by decide),
    non_success_status_api_error.2 ⟨403, "forbidden"⟩ (by decide)⟩

/-- Claim C1 counterexample: a 201 response whose body is exactly the spec's
Credentials shape with key `clientCertificate` parses as JSON, yet the call
fails with `RequestError` instead of returning the certificate string: the
derived deserializer only accepts the Rust field name `client_crt`. -/
theorem fetch_credentials_camel_counterexample :
    parseJson ("\x7b\"data\":\x7b\"clientCertificate\":\"X\"\x7d\x7d") =
      some (Json.obj [("data", Json.obj [("clientCertificate", Json.str ("X"))])]) ∧
    fetch_credentials_handle
      ⟨201, "\x7b\"data\":\x7b\"clientCertificate\":\"X\"\x7d\x7d"⟩ =
      Except.error PairingError.RequestError :=
  ⟨rfl, rfl⟩

/-- Claim C1 (amended): on HTTP 201 a body of the Credentials shape carrying
the code's field name `client_crt` is parsed and the certificate string in
that field is returned. -/
theorem fetch_credentials_parses_client_crt (resp : HttpResponse) (cert : String)
    (hs : resp.status = 201)
    (hb : parseJson resp.body =
      some (Json.obj [("data", Json.obj [("client_crt", Json.str cert)])])) :
    fetch_credentials_handle resp = Except.ok cert := by
  have hd : deApiResponse
      (Json.obj [("data", Json.obj [("client_crt", Json.str cert)])]) =
      some ⟨ResponseContents.AstarteMqttV1Credentials cert⟩ := rfl
  simp [fetch_credentials_handle, hs, hb, hd]

/-- Claim C1 witness at a concrete 201 response. -/
theorem fetch_credentials_parses_client_crt_witness :
    fetch_credentials_handle ⟨201, "\x7b\"data\":\x7b\"client_crt\":\"X\"\x7d\x7d"⟩ =
      Except.ok ("X") :=
  fetch_credentials_parses_client_crt
    ⟨201, "\x7b\"data\":\x7b\"client_crt\":\"X\"\x7d\x7d"⟩ ("X") rfl rfl

/-- Claim C2 counterexample: a 200 response whose body is exactly the spec's
Status shape with keys `astarteMqttV1` and `brokerUrl` parses as JSON, yet
the call fails with `RequestError` instead of returning the broker URL: the
derived deserializer only accepts the Rust field names `astarte_mqtt_v1` and
`broker_url`. -/
theorem fetch_broker_url_camel_counterexample :
    parseJson ("\x7b\"data\":\x7b\"version\":\"1.0\",\"status\":\"ok\",\"protocols\":\x7b\"astarteMqttV1\":\x7b\"brokerUrl\":\"mqtts://b.example\"\x7d\x7d\x7d\x7d") =
      some (Json.obj [("data", Json.obj
        [("version", Json.str ("1.0")), ("status", Json.str ("ok")),
         ("protocols", Json.obj [("astarteMqttV1",
            Json.obj [("brokerUrl", Json.str ("mqtts://b.example"))])])])]) ∧
    fetch_broker_url_handle
      ⟨200, "\x7b\"data\":\x7b\"version\":\"1.0\",\"status\":\"ok\",\"protocols\":\x7b\"astarteMqttV1\":\x7b\"brokerUrl\":\"mqtts://b.example\"\x7d\x7d\x7d\x7d"⟩ =
      Except.error PairingError.RequestError :=
  ⟨rfl, rfl⟩

/-- Claim C2 (amended): on HTTP 200 a body of the Status shape carrying the
code's field names `astarte_mqtt_v1` and `broker_url` is parsed and exactly
the nested broker URL string is returned. -/
theorem fetch_broker_url_parses_snake_case (resp : HttpResponse)
    (ver st url : String) (hs : resp.status = 200)
    (hb : parseJson resp.body =
      some (Json.obj [("data", Json.obj
        [("version", Json.str ver), ("status", Json.str st),
         ("protocols", Json.obj [("astarte_mqtt_v1",
            Json.obj [("broker_url", Json.str url)])])])])) :
    fetch_broker_url_handle resp = Except.ok url := by
  have hd : deApiResponse (Json.obj [("data", Json.obj
        [("version", Json.str ver), ("status", Json.str st),
         ("protocols", Json.obj [("astarte_mqtt_v1",
            Json.obj [("broker_url", Json.str url)])])])]) =
      some ⟨ResponseContents.StatusInfo ver st ⟨⟨url⟩⟩⟩ := rfl
  simp [fetch_broker_url_handle, hs, hb, hd]

/-- Claim C2 witness at a concrete 200 response. -/
theorem fetch_broker_url_parses_snake_case_witness :
    fetch_broker_url_handle
      ⟨200, "\x7b\"data\":\x7b\"version\":\"1.0\",\"status\":\"ok\",\"protocols\":\x7b\"astarte_mqtt_v1\":\x7b\"broker_url\":\"mqtts://b.example\"\x7d\x7d\x7d\x7d"⟩ =
      Except.ok ("mqtts://b.example") :=
  fetch_broker_url_parses_snake_case
    ⟨200, "\x7b\"data\":\x7b\"version\":\"1.0\",\"status\":\"ok\",\"protocols\":\x7b\"astarte_mqtt_v1\":\x7b\"broker_url\":\"mqtts://b.example\"\x7d\x7d\x7d\x7d"⟩
    ("1.0") ("ok") ("mqtts://b.example") rfl rfl

/-- Claim C3 counterexample: at the success status, a body that parses as JSON
but matches neither variant of `ApiResponse` fails with `RequestError` (the
decode failure of `response.json()`), not with `UnexpectedResponse`. -/
theorem shape_mismatch_request_error_counterexample :
    parseJson ("\x7b\"data\":\x7b\x7d\x7d") = some (Json.obj [("data", Json.obj [])]) ∧
    fetch_credentials_handle ⟨201, "\x7b\"data\":\x7b\x7d\x7d"⟩ =
      Except.error PairingError.RequestError ∧
    fetch_credentials_handle ⟨201, "\x7b\"data\":\x7b\x7d\x7d"⟩ ≠
      Except.error PairingError.UnexpectedResponse := by
  refine ⟨rfl, rfl, ?_⟩
  intro hcontra
  rw [show fetch_credentials_handle ⟨201, "\x7b\"data\":\x7b\x7d\x7d"⟩ =
    Except.error PairingError.RequestError from rfl] at hcontra
  simp at hcontra

/-- Claim C3 (amended): when the body deserializes as the shared `ApiResponse`
union but to the other endpoint's variant, the call fails with
`UnexpectedResponse` and with no other variant; a JSON body matching neither
variant instead fails inside `response.json()` and surfaces as
`RequestError`. -/
theorem wrong_variant_unexpected_response :
    (∀ (resp : HttpResponse) (r : ApiResponse), resp.status = 201 →
      (parseJson resp.body).bind deApiResponse = some r →
      (∀ s, r.data ≠ ResponseContents.AstarteMqttV1Credentials s) →
      fetch_credentials_handle resp = Except.error PairingError.UnexpectedResponse) ∧
    (∀ (resp : HttpResponse) (r : ApiResponse), resp.status = 200 →
      (parseJson resp.body).bind deApiResponse = some r →
      (∀ v s pr, r.data ≠ ResponseContents.StatusInfo v s pr) →
      fetch_broker_url_handle resp = Except.error PairingError.UnexpectedResponse) := by
  constructor
  · intro resp r hs hb hvar
    simp [fetch_credentials_handle, hs, hb]
    cases hr : r.data with
    | AstarteMqttV1Credentials s => exact absurd hr (hvar s)
    | StatusInfo v st pr => simp
  · intro resp r hs hb hvar
    simp [fetch_broker_url_handle, hs, hb]
    cases hr : r.data with
    | AstarteMqttV1Credentials s => simp
    | StatusInfo v st pr => exact absurd hr (hvar v st pr)

/-- Claim C3 witness: each endpoint receiving the other endpoint's success
shape at its own success status fails with UnexpectedResponse. -/
theorem wrong_variant_unexpected_response_witness :
    fetch_credentials_handle
      ⟨201, "\x7b\"data\":\x7b\"version\":\"1.0\",\"status\":\"ok\",\"protocols\":\x7b\"astarte_mqtt_v1\":\x7b\"broker_url\":\"mqtts://b.example\"\x7d\x7d\x7d\x7d"⟩ =
      Except.error PairingError.UnexpectedResponse ∧
    fetch_broker_url_handle ⟨200, "\x7b\"data\":\x7b\"client_crt\":\"X\"\x7d\x7d"⟩ =
      Except.error PairingError.UnexpectedResponse :=
  ⟨wrong_variant_unexpected_response.1
      ⟨201, "\x7b\"data\":\x7b\"version\":\"1.0\",\"status\":\"ok\",\"protocols\":\x7b\"astarte_mqtt_v1\":\x7b\"broker_url\":\"mqtts://b.example\"\x7d\x7d\x7d\x7d"⟩
      ⟨ResponseContents.StatusInfo ("1.0") ("ok") ⟨⟨"mqtts://b.example"⟩⟩⟩
      rfl rfl (fun s hh => ResponseContents.noConfusion hh),
    wrong_variant_unexpected_response.2
      ⟨200, "\x7b\"data\":\x7b\"client_crt\":\"X\"\x7d\x7d"⟩
      ⟨ResponseContents.AstarteMqttV1Credentials ("X")⟩
      rfl rfl (fun v s pr hh => ResponseContents.noConfusion hh)⟩

/-- Claim C4: evaluating the URL builder at a base URL with a non-root path
shows that the trailing-slash variant produces an extra empty segment, so the
two final request paths differ, contrary to the stated trailing-slash
insensitivity. -/
theorem trailing_slash_divergence :
    fetch_credentials_path ("http://h/pairing") ("r") ("d") =
      some ("/pairing/v1/r/devices/d/protocols/astarte_mqtt_v1/credentials") ∧
    fetch_credentials_path ("http://h/pairing/") ("r") ("d") =
      some ("/pairing//v1/r/devices/d/protocols/astarte_mqtt_v1/credentials") ∧
    fetch_credentials_path ("http://h/pairing") ("r") ("d") ≠
      fetch_credentials_path ("http://h/pairing/") ("r") ("d") := by
  refine ⟨rfl, rfl, ?_⟩
  decide

end Astarte
